import Mathlib

/- A shallow embedding of the turn-taking and streaming-audio core of
`src/frontend/app.js` (the browser voice-chat client).

Modelling notes.

* The browser runs a single-threaded cooperative event loop.  Each event
  handler runs atomically up to its next `await` of an external signal.
  The only such suspension inside the modelled code is
  `await new Promise(resolve => { source.onended = resolve; source.start(); })`
  inside the `while` loop of `processAudioQueue` (the `await initAudioContext()`
  calls resolve in the microtask queue, i.e. before any further event
  handler can run, so they are not suspension points at event granularity).

* Consequently `processAudioQueue` is modelled in two pieces:
  `startProcessing`, the synchronous prefix (the guard
  `if (isProcessingAudio || audioQueue.length === 0) return`, setting the
  flag, and the first loop iteration's `shift` and `source.start()` up to
  the `await`), and `renderResume`, one resumption of the loop after a
  buffer's `onended` callback fired (shift-and-start the next buffer, or
  exit the loop, reset the flag and run the pending-agent-done check).

* A buffer whose `source.start()` has run and whose `onended` has not yet
  fired is recorded in the field `inflight`: `clearAudioQueue` does not
  call `source.stop()`, so the underlying audio node keeps rendering and
  its suspended coroutine later resumes.  Several coroutines can be
  suspended at once (each awaiting its own source), hence a list.
  `started` and `arrivals` are ghost history fields recording the order
  in which buffers began rendering resp. were appended to the queue.

* Decoded audio buffers are abstracted by natural numbers.  Pure DOM/UI
  calls (updateVoiceStatus, updateAgentIndicator, toasts, transcripts,
  console logging) do not touch the modelled state and are omitted.

* Field `isProcessing` models the source variable `isProcessingAudio`
  (app.js:880); the name is shortened in the Lean development. -/

namespace VoiceClient

/-- Outbound message tags produced by the modelled core (app.js:1028, 1296). -/
inductive OutMsg
  | audioInput
  | interrupt
  deriving DecidableEq

/-- The mutable client state of app.js that the claims are about:
the playback queue and its flags (app.js:879-881), the voice-mode flags
(app.js:981-983), the socket status, and ghost history fields. -/
structure S where
  audioQueue : List Nat
  isProcessing : Bool
  pendingAgentDone : Bool
  isVoiceModeActive : Bool
  isListening : Bool
  isAgentSpeaking : Bool
  wsOpen : Bool
  micHeld : Bool
  inflight : List Nat
  started : List Nat
  arrivals : List Nat
  sent : List OutMsg
  deriving DecidableEq

/-- `sendWebSocketMessage` (app.js:570): writes only when the socket is open. -/
def sendMsg (m : OutMsg) (s : S) : S :=
  if s.wsOpen = true then { s with sent := s.sent ++ [m] } else s

/-- `pauseListening` (app.js:1058). -/
def pauseListening (s : S) : S :=
  { s with isListening := false }

/-- `resumeListening` (app.js:1069): only takes effect while voice mode is on. -/
def resumeListening (s : S) : S :=
  if s.isVoiceModeActive = true then { s with isListening := true } else s

/-- The synchronous prefix of `processAudioQueue` (app.js:942-957): the guard,
`isProcessingAudio = true`, and the first iteration's `shift` and
`source.start()` up to the `await` on `onended`. -/
def startProcessing (s : S) : S :=
  if s.isProcessing = true ∨ s.audioQueue = [] then s
  else
    { s with isProcessing := true,
             audioQueue := s.audioQueue.tail,
             inflight := s.inflight ++ [s.audioQueue.headI],
             started := s.started ++ [s.audioQueue.headI] }

/-- `playAudio` (app.js:903-937): decode the chunk, append the buffer to
`audioQueue`, call `processAudioQueue`.  The decoded buffer is `b`. -/
def playChunk (b : Nat) (s : S) : S :=
  startProcessing
    { s with audioQueue := s.audioQueue ++ [b], arrivals := s.arrivals ++ [b] }

/-- One resumption of `processAudioQueue`'s `while` loop after an `onended`
callback (app.js:948-972): if the queue is non-empty, shift and start the
next buffer and suspend again; otherwise exit the loop, reset
`isProcessingAudio`, and run the `pendingAgentDone` check. -/
def renderResume (s : S) : S :=
  if s.audioQueue = [] then
    if s.pendingAgentDone = true then
      resumeListening
        { s with isProcessing := false, pendingAgentDone := false,
                 isAgentSpeaking := false }
    else { s with isProcessing := false }
  else
    { s with audioQueue := s.audioQueue.tail,
             inflight := s.inflight ++ [s.audioQueue.headI],
             started := s.started ++ [s.audioQueue.headI] }

/-- The `onended` callback of the `i`-th in-flight source firing, resuming
the coroutine that awaited it. -/
def renderComplete (i : Nat) (s : S) : S :=
  if i < s.inflight.length then
    renderResume { s with inflight := s.inflight.eraseIdx i }
  else s

/-- `handleAudioOutput` (app.js:750-765). -/
def handleAudioOutput (hasAudio : Bool) (b : Nat) (s : S) : S :=
  if hasAudio = true ∧ s.isVoiceModeActive = true then
    if s.isAgentSpeaking = false then
      playChunk b
        (pauseListening
          { s with isAgentSpeaking := true, pendingAgentDone := false })
    else playChunk b s
  else s

/-- `handleAgentSpeaking` (app.js:822-830): sets the speaking flag
unconditionally, pauses listening only in voice mode. -/
def handleAgentSpeaking (s : S) : S :=
  if s.isVoiceModeActive = true then
    pauseListening { s with isAgentSpeaking := true }
  else { s with isAgentSpeaking := true }

/-- `handleAgentDone` (app.js:832-852). -/
def handleAgentDone (s : S) : S :=
  if s.audioQueue ≠ [] ∨ s.isProcessing = true then
    { s with pendingAgentDone := true }
  else resumeListening { s with isAgentSpeaking := false }

/-- `clearAudioQueue` (app.js:1315-1320). -/
def clearAudioQueue (s : S) : S :=
  { s with audioQueue := [], isProcessing := false, pendingAgentDone := false }

/-- The `interruptBtn` click handler (app.js:1290-1310). -/
def interruptClick (s : S) : S :=
  if s.isVoiceModeActive = false ∨ s.isAgentSpeaking = false then s
  else
    resumeListening
      { clearAudioQueue (sendMsg OutMsg.interrupt s) with
          isAgentSpeaking := false }

/-- A successful `startVoiceMode` (app.js:988-1053): microphone acquired,
capture enabled immediately. -/
def startVoiceModeOk (s : S) : S :=
  { s with isVoiceModeActive := true, isListening := true, micHeld := true }

/-- `stopVoiceMode` (app.js:1080-1104): capture disabled, processor
disconnected, media tracks stopped.  The audio queue, its flags and any
in-flight playback are not touched. -/
def stopVoiceMode (s : S) : S :=
  { s with isVoiceModeActive := false, isListening := false, micHeld := false }

/-- The `voiceToggleBtn` click handler (app.js:1272-1285); `micOk` is
whether `getUserMedia` succeeds (on failure the catch only shows a toast). -/
def voiceToggle (micOk : Bool) (s : S) : S :=
  if s.wsOpen = false then s
  else if s.isVoiceModeActive = true then stopVoiceMode s
  else if micOk = true then startVoiceModeOk s
  else s

/-- The `onaudioprocess` capture callback (app.js:1007-1029): a frame is
encoded and sent iff voice mode is on and `isListening` (and the socket
is open, checked inside `sendWebSocketMessage`). -/
def captureTick (s : S) : S :=
  if s.isVoiceModeActive = false ∨ s.isListening = false then s
  else sendMsg OutMsg.audioInput s

/-- The part of `handleUserTranscript` touching modelled state (app.js:744-748). -/
def userTranscriptEv (s : S) : S :=
  if s.isVoiceModeActive = true then pauseListening s else s

/-- `handleWebSocketClose` plus `resetUIState` (app.js:668-679, 1176-1208). -/
def wsCloseEv (s : S) : S :=
  { s with wsOpen := false, isVoiceModeActive := false,
           isListening := false, micHeld := false }

/-- A successfully parsed inbound envelope, identified by its `type` tag.
`unknownTag` stands for any tag that is not in the dispatcher's switch. -/
inductive Parsed
  | audioOutput (hasAudio : Bool) (b : Nat)
  | agentSpeaking
  | agentDone
  | userTranscript
  | unknownTag
  deriving DecidableEq

/-- `handleWebSocketMessage` (app.js:599-663).  `none` is an envelope whose
`JSON.parse` threw: the `catch` only logs, so the state is unchanged.  An
unknown tag falls to the `default` branch, which also only logs. -/
def handleWebSocketMessage : Option Parsed → S → S
  | none, s => s
  | some (Parsed.audioOutput h b), s => handleAudioOutput h b s
  | some Parsed.agentSpeaking, s => handleAgentSpeaking s
  | some Parsed.agentDone, s => handleAgentDone s
  | some Parsed.userTranscript, s => userTranscriptEv s
  | some Parsed.unknownTag, s => s

/-- The independently timed event sources driving the client: inbound
network messages, per-buffer playback completions, capture callbacks, and
user clicks. -/
inductive Ev
  | msg (m : Option Parsed)
  | renderDone (i : Nat)
  | capture
  | interruptBtn
  | voiceBtn (micOk : Bool)
  | wsClosed
  deriving DecidableEq

/-- One step of the event loop. -/
def step (s : S) : Ev → S
  | Ev.msg m => handleWebSocketMessage m s
  | Ev.renderDone i => renderComplete i s
  | Ev.capture => captureTick s
  | Ev.interruptBtn => interruptClick s
  | Ev.voiceBtn ok => voiceToggle ok s
  | Ev.wsClosed => wsCloseEv s

/-- Running a whole sequence of events. -/
def run (s : S) (evs : List Ev) : S := evs.foldl step s

/-- The state right after the websocket opened: voice mode off, nothing
queued, nothing sent. -/
def initS : S :=
  { audioQueue := [], isProcessing := false, pendingAgentDone := false,
    isVoiceModeActive := false, isListening := false, isAgentSpeaking := false,
    wsOpen := true, micHeld := false,
    inflight := [], started := [], arrivals := [], sent := [] }

/-- Is this event a user interrupt (the only caller of `clearAudioQueue`)? -/
def isInterrupt : Ev → Bool
  | Ev.interruptBtn => true
  | _ => false

/-- A trace with no clear operation in it. -/
def noClearTrace (evs : List Ev) : Bool := evs.all fun e => !isInterrupt e

/-- The scheduler invariant of the claim "strict FIFO, never two buffers
rendering concurrently": at most one in-flight source, the
active-rendering flag tracks it, and the buffers that started rendering
followed by the still-queued ones are exactly the arrivals in order. -/
def schedInv (s : S) : Prop :=
  s.inflight.length ≤ 1
  ∧ (s.isProcessing = true ↔ s.inflight ≠ [])
  ∧ s.started ++ s.audioQueue = s.arrivals

/-- The inductive strengthening of "pendingAgentDone implies
isAgentSpeaking" over all reachable states. -/
def Inv9 (s : S) : Prop :=
  (s.pendingAgentDone = true → s.isAgentSpeaking = true)
  ∧ ((s.audioQueue ≠ [] ∨ s.isProcessing = true) → s.isAgentSpeaking = true)
  ∧ (s.pendingAgentDone = true → (s.audioQueue ≠ [] ∨ s.isProcessing = true))
  ∧ (s.audioQueue ≠ [] → s.isProcessing = true)

instance schedInvDecidable (s : S) : Decidable (schedInv s) := by
  unfold schedInv; infer_instance

instance inv9Decidable (s : S) : Decidable (Inv9 s) := by
  unfold Inv9; infer_instance

/-- An event is safe in state `s` when it is not a voice-mode start issued
while the agent-speaking flag is already set (the one race that breaks the
listening/speaking exclusion). -/
def safeEv (s : S) : Ev → Bool
  | Ev.voiceBtn _ => s.isVoiceModeActive || !s.isAgentSpeaking
  | _ => true

/-- Every event of the trace is safe in the state where it fires. -/
def safeFrom (s : S) : List Ev → Bool
  | [] => true
  | e :: rest => safeEv s e && safeFrom (step s e) rest

/-- The inductive invariant behind the capture-gate claim: listening and
agent-speaking are mutually exclusive, listening only happens in voice
mode, and voice mode only runs over an open socket. -/
def FullInv (s : S) : Prop :=
  ¬(s.isListening = true ∧ s.isAgentSpeaking = true)
  ∧ (s.isListening = true → s.isVoiceModeActive = true)
  ∧ (s.isVoiceModeActive = true → s.wsOpen = true)

instance fullInvDecidable (s : S) : Decidable (FullInv s) := by
  unfold FullInv; infer_instance

theorem run_nil (s : S) : run s [] = s := rfl

theorem run_cons (s : S) (e : Ev) (evs : List Ev) :
    run s (e :: evs) = run (step s e) evs := rfl

theorem run_preserves {P : S → Prop} (hP : ∀ s e, P s → P (step s e)) :
    ∀ (evs : List Ev) (s : S), P s → P (run s evs) := by
  intro evs
  induction evs with
  | nil => intro s h; exact h
  | cons e rest ih => intro s h; exact ih (step s e) (hP s e h)

theorem run_preserves_noClear {P : S → Prop}
    (hP : ∀ s e, isInterrupt e = false → P s → P (step s e)) :
    ∀ (evs : List Ev) (s : S), noClearTrace evs = true → P s → P (run s evs) := by
  intro evs
  induction evs with
  | nil => intro s _ h; exact h
  | cons e rest ih =>
    intro s hnc h
    simp only [noClearTrace, List.all_cons, Bool.and_eq_true, Bool.not_eq_true'] at hnc
    exact ih (step s e) (by simpa [noClearTrace] using hnc.2) (hP s e hnc.1 h)

theorem run_preserves_safe {P : S → Prop}
    (hP : ∀ s e, safeEv s e = true → P s → P (step s e)) :
    ∀ (evs : List Ev) (s : S), safeFrom s evs = true → P s → P (run s evs) := by
  intro evs
  induction evs with
  | nil => intro s _ h; exact h
  | cons e rest ih =>
    intro s hsf h
    simp only [safeFrom, Bool.and_eq_true] at hsf
    exact ih (step s e) hsf.2 (hP s e hsf.1 h)

theorem inv9_playChunk (b : Nat) (s : S) (hs : s.isAgentSpeaking = true) :
    Inv9 (playChunk b s) := by
  unfold playChunk startProcessing Inv9
  split_ifs with hc <;> simp_all

theorem inv9_step (s : S) (e : Ev) (h : Inv9 s) : Inv9 (step s e) := by
  obtain ⟨h1, h2, h3, h4⟩ := h
  cases e with
  | msg m =>
    cases m with
    | none => exact ⟨h1, h2, h3, h4⟩
    | some p =>
      cases p with
      | audioOutput ha b =>
        show Inv9 (handleAudioOutput ha b s)
        unfold handleAudioOutput
        split_ifs with hg hsp
        · exact inv9_playChunk b _ (by simp [pauseListening])
        · exact inv9_playChunk b s (by simp_all)
        · exact ⟨h1, h2, h3, h4⟩
      | agentSpeaking =>
        show Inv9 (handleAgentSpeaking s)
        unfold handleAgentSpeaking pauseListening Inv9
        split_ifs <;> simp_all
      | agentDone =>
        show Inv9 (handleAgentDone s)
        unfold handleAgentDone resumeListening Inv9
        split_ifs with hg hv <;> simp_all
      | userTranscript =>
        show Inv9 (userTranscriptEv s)
        unfold userTranscriptEv pauseListening Inv9
        split_ifs <;> simp_all
      | unknownTag => exact ⟨h1, h2, h3, h4⟩
  | renderDone i =>
    show Inv9 (renderComplete i s)
    unfold renderComplete renderResume resumeListening Inv9
    split_ifs <;> simp_all
  | capture =>
    show Inv9 (captureTick s)
    unfold captureTick sendMsg Inv9
    split_ifs <;> simp_all
  | interruptBtn =>
    show Inv9 (interruptClick s)
    unfold interruptClick clearAudioQueue sendMsg resumeListening Inv9
    split_ifs <;> simp_all
  | voiceBtn ok =>
    show Inv9 (voiceToggle ok s)
    unfold voiceToggle stopVoiceMode startVoiceModeOk Inv9
    split_ifs <;> simp_all
  | wsClosed =>
    show Inv9 (wsCloseEv s)
    unfold wsCloseEv Inv9
    simp_all

theorem schedInv_playChunk (b : Nat) (s : S) (h : schedInv s) :
    schedInv (playChunk b s) := by
  obtain ⟨hl, hiff, happ⟩ := h
  unfold playChunk startProcessing schedInv
  split_ifs with hc
  · refine ⟨hl, hiff, ?_⟩
    simp only [← happ, List.append_assoc]
  · have hinfl : s.inflight = [] := by
      by_contra hne
      exact absurd (hiff.mpr hne) (by simpa using (not_or.mp hc).1)
    rcases hq : s.audioQueue with _ | ⟨x, xs⟩
    · refine ⟨?_, ?_, ?_⟩ <;> simp_all
    · refine ⟨?_, ?_, ?_⟩
      · simp [hinfl]
      · simp [hinfl]
      · have h2 : s.started ++ x :: xs = s.arrivals := by rw [← happ, hq]
        dsimp only
        simp only [List.cons_append, List.headI_cons, List.tail_cons]
        rw [← h2]
        simp [List.append_assoc]

theorem schedInv_renderComplete (i : Nat) (s : S) (h : schedInv s) :
    schedInv (renderComplete i s) := by
  obtain ⟨hl, hiff, happ⟩ := h
  unfold renderComplete
  split_ifs with hi
  · have h1 : s.inflight.length = 1 := le_antisymm hl (by omega)
    have hi0 : i = 0 := by omega
    obtain ⟨x, hx⟩ := List.length_eq_one.mp h1
    have hproc : s.isProcessing = true := hiff.mpr (by simp [hx])
    subst hi0
    unfold renderResume resumeListening
    rcases hq : s.audioQueue with _ | ⟨y, ys⟩ <;>
      split_ifs <;> simp_all [schedInv, List.append_assoc]
  · exact ⟨hl, hiff, happ⟩

theorem schedInv_step (s : S) (e : Ev) (he : isInterrupt e = false)
    (h : schedInv s) : schedInv (step s e) := by
  obtain ⟨hl, hiff, happ⟩ := h
  cases e with
  | msg m =>
    cases m with
    | none => exact ⟨hl, hiff, happ⟩
    | some p =>
      cases p with
      | audioOutput ha b =>
        show schedInv (handleAudioOutput ha b s)
        unfold handleAudioOutput
        split_ifs
        · exact schedInv_playChunk b _ ⟨hl, hiff, happ⟩
        · exact schedInv_playChunk b s ⟨hl, hiff, happ⟩
        · exact ⟨hl, hiff, happ⟩
      | agentSpeaking =>
        show schedInv (handleAgentSpeaking s)
        unfold handleAgentSpeaking pauseListening
        split_ifs <;> exact ⟨hl, hiff, happ⟩
      | agentDone =>
        show schedInv (handleAgentDone s)
        unfold handleAgentDone resumeListening
        split_ifs <;> exact ⟨hl, hiff, happ⟩
      | userTranscript =>
        show schedInv (userTranscriptEv s)
        unfold userTranscriptEv pauseListening
        split_ifs <;> exact ⟨hl, hiff, happ⟩
      | unknownTag => exact ⟨hl, hiff, happ⟩
  | renderDone i => exact schedInv_renderComplete i s ⟨hl, hiff, happ⟩
  | capture =>
    show schedInv (captureTick s)
    unfold captureTick sendMsg
    split_ifs <;> exact ⟨hl, hiff, happ⟩
  | interruptBtn => simp [isInterrupt] at he
  | voiceBtn ok =>
    show schedInv (voiceToggle ok s)
    unfold voiceToggle stopVoiceMode startVoiceModeOk
    split_ifs <;> exact ⟨hl, hiff, happ⟩
  | wsClosed => exact ⟨hl, hiff, happ⟩

theorem fullInv_step (s : S) (e : Ev) (hsafe : safeEv s e = true)
    (h : FullInv s) : FullInv (step s e) := by
  obtain ⟨me, ha, hw⟩ := h
  cases e with
  | msg m =>
    cases m with
    | none => exact ⟨me, ha, hw⟩
    | some p =>
      cases p with
      | audioOutput hau b =>
        show FullInv (handleAudioOutput hau b s)
        unfold handleAudioOutput playChunk startProcessing pauseListening FullInv
        split_ifs <;> simp_all
      | agentSpeaking =>
        show FullInv (handleAgentSpeaking s)
        unfold handleAgentSpeaking pauseListening FullInv
        split_ifs <;> simp_all
      | agentDone =>
        show FullInv (handleAgentDone s)
        unfold handleAgentDone resumeListening FullInv
        split_ifs <;> simp_all
      | userTranscript =>
        show FullInv (userTranscriptEv s)
        unfold userTranscriptEv pauseListening FullInv
        split_ifs <;> simp_all
      | unknownTag => exact ⟨me, ha, hw⟩
  | renderDone i =>
    show FullInv (renderComplete i s)
    unfold renderComplete renderResume resumeListening FullInv
    split_ifs <;> simp_all
  | capture =>
    show FullInv (captureTick s)
    unfold captureTick sendMsg FullInv
    split_ifs <;> simp_all
  | interruptBtn =>
    show FullInv (interruptClick s)
    unfold interruptClick clearAudioQueue sendMsg resumeListening FullInv
    split_ifs <;> simp_all
  | voiceBtn ok =>
    show FullInv (voiceToggle ok s)
    unfold voiceToggle stopVoiceMode startVoiceModeOk FullInv
    simp only [safeEv, Bool.or_eq_true, Bool.not_eq_true'] at hsafe
    split_ifs <;> simp_all
  | wsClosed =>
    show FullInv (wsCloseEv s)
    unfold wsCloseEv FullInv
    simp_all

/-- C1 (counterexample): the claim "never two buffers rendering
concurrently, for every interleaving of enqueue, completion and clear
operations" is false.  In voice mode, enqueue buffer 1 (it starts
rendering), interrupt (which calls clearAudioQueue without stopping the
in-flight source), then enqueue buffer 2: processAudioQueue starts
buffer 2 while buffer 1 is still rendering, so two sources render
concurrently. -/
theorem two_buffers_render_concurrently :
    (run initS [Ev.voiceBtn true, Ev.msg (some (Parsed.audioOutput true 1)),
      Ev.interruptBtn, Ev.msg (some (Parsed.audioOutput true 2))]).inflight = [1, 2]
    ∧ (run initS [Ev.voiceBtn true, Ev.msg (some (Parsed.audioOutput true 1)),
      Ev.interruptBtn, Ev.msg (some (Parsed.audioOutput true 2))]).inflight.length = 2 := by
  decide

/-- C1 (amended): for every interleaving of events that contains no clear
operation (no interrupt), at most one buffer is ever in flight, and the
buffers that started rendering followed by the still-queued ones are
exactly the enqueued buffers in arrival order (strict FIFO, no
reordering, no loss). -/
theorem fifo_and_single_render_without_clear (evs : List Ev)
    (h : noClearTrace evs = true) :
    (run initS evs).inflight.length ≤ 1
    ∧ (run initS evs).started ++ (run initS evs).audioQueue = (run initS evs).arrivals := by
  have hinv := run_preserves_noClear (P := schedInv) schedInv_step evs initS h (by decide)
  exact ⟨hinv.1, hinv.2.2⟩

/-- Witness for the amended C1 at a concrete clear-free interleaving. -/
theorem fifo_and_single_render_without_clear_witness :
    noClearTrace [Ev.voiceBtn true, Ev.msg (some (Parsed.audioOutput true 1)),
      Ev.msg (some (Parsed.audioOutput true 2)), Ev.renderDone 0] = true
    ∧ ((run initS [Ev.voiceBtn true, Ev.msg (some (Parsed.audioOutput true 1)),
        Ev.msg (some (Parsed.audioOutput true 2)), Ev.renderDone 0]).inflight.length ≤ 1
      ∧ (run initS [Ev.voiceBtn true, Ev.msg (some (Parsed.audioOutput true 1)),
          Ev.msg (some (Parsed.audioOutput true 2)), Ev.renderDone 0]).started
        ++ (run initS [Ev.voiceBtn true, Ev.msg (some (Parsed.audioOutput true 1)),
          Ev.msg (some (Parsed.audioOutput true 2)), Ev.renderDone 0]).audioQueue
        = (run initS [Ev.voiceBtn true, Ev.msg (some (Parsed.audioOutput true 1)),
          Ev.msg (some (Parsed.audioOutput true 2)), Ev.renderDone 0]).arrivals) :=
  ⟨by decide, fifo_and_single_render_without_clear _ (by decide)⟩

/-- C2 (counterexample): two parts of the claim fail.  First, clear does
not stop the in-flight buffer: after buffer 1 started rendering and
buffer 2 is queued, clearAudioQueue leaves buffer 1 rendering (the
source node is never stopped).  Second, a late completion of the cleared
generation is not suppressed when events intervene: enqueue buffer 1,
interrupt (clear), enqueue buffer 2, agent_done (re-sets the pending
flag) — now the stale completion of cleared buffer 1 drains the loop,
sees the pending flag and resumes listening while buffer 2 is still
rendering. -/
theorem clear_does_not_stop_inflight :
    (clearAudioQueue (run initS [Ev.voiceBtn true,
      Ev.msg (some (Parsed.audioOutput true 1)),
      Ev.msg (some (Parsed.audioOutput true 2))])).inflight = [1]
    ∧ (run initS [Ev.voiceBtn true, Ev.msg (some (Parsed.audioOutput true 1)),
        Ev.interruptBtn, Ev.msg (some (Parsed.audioOutput true 2)),
        Ev.msg (some Parsed.agentDone), Ev.renderDone 0]).isListening = true
    ∧ (run initS [Ev.voiceBtn true, Ev.msg (some (Parsed.audioOutput true 1)),
        Ev.interruptBtn, Ev.msg (some (Parsed.audioOutput true 2)),
        Ev.msg (some Parsed.agentDone), Ev.renderDone 0]).inflight = [2] := by
  decide

/-- C2 (amended): clearAudioQueue immediately discards every buffered
buffer, resets the processing and pending flags, changes no other state
and emits no queue-drained signal (no message, no listening or speaking
change); the in-flight buffer is not stopped and keeps rendering.  Late
completions are suppressed only through the reset of the pending flag:
in any state whose pendingAgentDone is false — as clear leaves it — a
completion changes neither the listening nor the agent-speaking flag and
leaves the pending flag false.  There is no generation tag, so this is
the whole guarantee: once a later agent_done re-sets the pending flag,
a stale completion of the cleared generation does trigger the resume
(see the counterexample). -/
theorem clearAudioQueue_spec (s t : S) (j : Nat)
    (hp : t.pendingAgentDone = false) :
    (clearAudioQueue s).audioQueue = []
    ∧ (clearAudioQueue s).isProcessing = false
    ∧ (clearAudioQueue s).pendingAgentDone = false
    ∧ (clearAudioQueue s).inflight = s.inflight
    ∧ (clearAudioQueue s).sent = s.sent
    ∧ (clearAudioQueue s).isListening = s.isListening
    ∧ (clearAudioQueue s).isAgentSpeaking = s.isAgentSpeaking
    ∧ (renderComplete j t).isListening = t.isListening
    ∧ (renderComplete j t).isAgentSpeaking = t.isAgentSpeaking
    ∧ (renderComplete j t).pendingAgentDone = false := by
  unfold clearAudioQueue renderComplete renderResume resumeListening
  split_ifs <;> simp_all

/-- Witness for the amended C2: the cleared state itself has the pending
flag false, and the orphaned buffer's completion fired there changes no
turn flag. -/
theorem clearAudioQueue_spec_witness :
    (clearAudioQueue (run initS [Ev.voiceBtn true,
        Ev.msg (some (Parsed.audioOutput true 1)),
        Ev.msg (some (Parsed.audioOutput true 2))])).pendingAgentDone = false
    ∧ ((clearAudioQueue (run initS [Ev.voiceBtn true,
          Ev.msg (some (Parsed.audioOutput true 1)),
          Ev.msg (some (Parsed.audioOutput true 2))])).audioQueue = []
      ∧ (clearAudioQueue (run initS [Ev.voiceBtn true,
          Ev.msg (some (Parsed.audioOutput true 1)),
          Ev.msg (some (Parsed.audioOutput true 2))])).isProcessing = false
      ∧ (clearAudioQueue (run initS [Ev.voiceBtn true,
          Ev.msg (some (Parsed.audioOutput true 1)),
          Ev.msg (some (Parsed.audioOutput true 2))])).pendingAgentDone = false
      ∧ (clearAudioQueue (run initS [Ev.voiceBtn true,
          Ev.msg (some (Parsed.audioOutput true 1)),
          Ev.msg (some (Parsed.audioOutput true 2))])).inflight
        = (run initS [Ev.voiceBtn true,
          Ev.msg (some (Parsed.audioOutput true 1)),
          Ev.msg (some (Parsed.audioOutput true 2))]).inflight
      ∧ (clearAudioQueue (run initS [Ev.voiceBtn true,
          Ev.msg (some (Parsed.audioOutput true 1)),
          Ev.msg (some (Parsed.audioOutput true 2))])).sent
        = (run initS [Ev.voiceBtn true,
          Ev.msg (some (Parsed.audioOutput true 1)),
          Ev.msg (some (Parsed.audioOutput true 2))]).sent
      ∧ (clearAudioQueue (run initS [Ev.voiceBtn true,
          Ev.msg (some (Parsed.audioOutput true 1)),
          Ev.msg (some (Parsed.audioOutput true 2))])).isListening
        = (run initS [Ev.voiceBtn true,
          Ev.msg (some (Parsed.audioOutput true 1)),
          Ev.msg (some (Parsed.audioOutput true 2))]).isListening
      ∧ (clearAudioQueue (run initS [Ev.voiceBtn true,
          Ev.msg (some (Parsed.audioOutput true 1)),
          Ev.msg (some (Parsed.audioOutput true 2))])).isAgentSpeaking
        = (run initS [Ev.voiceBtn true,
          Ev.msg (some (Parsed.audioOutput true 1)),
          Ev.msg (some (Parsed.audioOutput true 2))]).isAgentSpeaking
      ∧ (renderComplete 0 (clearAudioQueue (run initS [Ev.voiceBtn true,
          Ev.msg (some (Parsed.audioOutput true 1)),
          Ev.msg (some (Parsed.audioOutput true 2))]))).isListening
        = (clearAudioQueue (run initS [Ev.voiceBtn true,
          Ev.msg (some (Parsed.audioOutput true 1)),
          Ev.msg (some (Parsed.audioOutput true 2))])).isListening
      ∧ (renderComplete 0 (clearAudioQueue (run initS [Ev.voiceBtn true,
          Ev.msg (some (Parsed.audioOutput true 1)),
          Ev.msg (some (Parsed.audioOutput true 2))]))).isAgentSpeaking
        = (clearAudioQueue (run initS [Ev.voiceBtn true,
          Ev.msg (some (Parsed.audioOutput true 1)),
          Ev.msg (some (Parsed.audioOutput true 2))])).isAgentSpeaking
      ∧ (renderComplete 0 (clearAudioQueue (run initS [Ev.voiceBtn true,
          Ev.msg (some (Parsed.audioOutput true 1)),
          Ev.msg (some (Parsed.audioOutput true 2))]))).pendingAgentDone = false) :=
  ⟨by decide,
    clearAudioQueue_spec
      (run initS [Ev.voiceBtn true, Ev.msg (some (Parsed.audioOutput true 1)),
        Ev.msg (some (Parsed.audioOutput true 2))])
      (clearAudioQueue (run initS [Ev.voiceBtn true,
        Ev.msg (some (Parsed.audioOutput true 1)),
        Ev.msg (some (Parsed.audioOutput true 2))]))
      0 (by decide)⟩

/-- C3 (confirmed): on agent_done, listening resumes immediately iff the
playback queue is empty and the active-rendering flag is clear; otherwise
pendingAgentDone is set and listening is not resumed; the resume then
happens exactly once, at the completion that drains the queue (which also
clears the pending flag), and a completion with the pending flag clear
never changes the listening state. -/
theorem agent_done_resume (s t u : S) (i j : Nat)
    (hv : s.isVoiceModeActive = true) (hl : s.isListening = false)
    (ht1 : t.pendingAgentDone = true) (ht2 : t.isVoiceModeActive = true)
    (ht3 : t.audioQueue = []) (hi : i < t.inflight.length)
    (hu : u.pendingAgentDone = false) :
    ((handleAgentDone s).isListening = true ↔ (s.audioQueue = [] ∧ s.isProcessing = false))
    ∧ ((s.audioQueue ≠ [] ∨ s.isProcessing = true) →
        (handleAgentDone s).pendingAgentDone = true
        ∧ (handleAgentDone s).isListening = false)
    ∧ ((renderComplete i t).isListening = true
        ∧ (renderComplete i t).pendingAgentDone = false)
    ∧ (renderComplete j u).isListening = u.isListening := by
  refine ⟨?_, ?_, ?_, ?_⟩
  · unfold handleAgentDone resumeListening
    split_ifs with hg <;> simp_all
    tauto
  · unfold handleAgentDone resumeListening
    split_ifs with hg
    · simp_all
    · simp_all
  · unfold renderComplete renderResume resumeListening
    split_ifs
    all_goals simp_all
  · unfold renderComplete renderResume resumeListening
    split_ifs
    all_goals simp_all

/-- Witness for C3 at concrete states: a state with one in-flight buffer
(immediate branch and pending branch) and a drained pending state. -/
theorem agent_done_resume_witness :
    ((run initS [Ev.voiceBtn true, Ev.msg (some (Parsed.audioOutput true 1))]).isVoiceModeActive = true
      ∧ (run initS [Ev.voiceBtn true, Ev.msg (some (Parsed.audioOutput true 1))]).isListening = false
      ∧ (run initS [Ev.voiceBtn true, Ev.msg (some (Parsed.audioOutput true 1)),
          Ev.msg (some Parsed.agentDone)]).pendingAgentDone = true
      ∧ (run initS [Ev.voiceBtn true, Ev.msg (some (Parsed.audioOutput true 1)),
          Ev.msg (some Parsed.agentDone)]).audioQueue = []
      ∧ 0 < (run initS [Ev.voiceBtn true, Ev.msg (some (Parsed.audioOutput true 1)),
          Ev.msg (some Parsed.agentDone)]).inflight.length)
    ∧ (((handleAgentDone (run initS [Ev.voiceBtn true,
          Ev.msg (some (Parsed.audioOutput true 1))])).isListening = true
        ↔ ((run initS [Ev.voiceBtn true, Ev.msg (some (Parsed.audioOutput true 1))]).audioQueue = []
          ∧ (run initS [Ev.voiceBtn true, Ev.msg (some (Parsed.audioOutput true 1))]).isProcessing = false))
      ∧ (((run initS [Ev.voiceBtn true, Ev.msg (some (Parsed.audioOutput true 1))]).audioQueue ≠ []
          ∨ (run initS [Ev.voiceBtn true, Ev.msg (some (Parsed.audioOutput true 1))]).isProcessing = true) →
          (handleAgentDone (run initS [Ev.voiceBtn true,
            Ev.msg (some (Parsed.audioOutput true 1))])).pendingAgentDone = true
          ∧ (handleAgentDone (run initS [Ev.voiceBtn true,
            Ev.msg (some (Parsed.audioOutput true 1))])).isListening = false)
      ∧ ((renderComplete 0 (run initS [Ev.voiceBtn true, Ev.msg (some (Parsed.audioOutput true 1)),
            Ev.msg (some Parsed.agentDone)])).isListening = true
        ∧ (renderComplete 0 (run initS [Ev.voiceBtn true, Ev.msg (some (Parsed.audioOutput true 1)),
            Ev.msg (some Parsed.agentDone)])).pendingAgentDone = false)
      ∧ (renderComplete 0 initS).isListening = initS.isListening) :=
  ⟨by decide,
    agent_done_resume
      (run initS [Ev.voiceBtn true, Ev.msg (some (Parsed.audioOutput true 1))])
      (run initS [Ev.voiceBtn true, Ev.msg (some (Parsed.audioOutput true 1)),
        Ev.msg (some Parsed.agentDone)])
      initS 0 0 (by decide) (by decide) (by decide) (by decide) (by decide)
      (by decide) (by decide)⟩

/-- C4 (counterexample): the claim that an interrupt issued "in state
AGENT_SPEAKING or LISTENING" sends one interrupt message and clears the
queue is false in the LISTENING case: with voice mode active and the
agent-speaking flag clear, the handler's guard returns immediately — the
whole event is a no-op and no message is sent. -/
theorem interrupt_noop_while_listening :
    run initS [Ev.voiceBtn true, Ev.interruptBtn] = run initS [Ev.voiceBtn true]
    ∧ (run initS [Ev.voiceBtn true, Ev.interruptBtn]).sent = [] := by
  decide

/-- C4 (amended): the interrupt handler acts only when voice mode is
active and the agent-speaking flag is set; it then clears the playback
queue and the pending-turn-handover flag, re-enables capture (state
LISTENING) and sends exactly one interrupt message; issued while the
agent-speaking flag is clear (state LISTENING) it changes nothing and
sends nothing. -/
theorem interrupt_effect (s t : S)
    (hv : s.isVoiceModeActive = true) (hs : s.isAgentSpeaking = true)
    (hw : s.wsOpen = true) (ht : t.isAgentSpeaking = false) :
    (interruptClick s).audioQueue = []
    ∧ (interruptClick s).pendingAgentDone = false
    ∧ (interruptClick s).isListening = true
    ∧ (interruptClick s).isAgentSpeaking = false
    ∧ (interruptClick s).isVoiceModeActive = true
    ∧ (interruptClick s).sent = s.sent ++ [OutMsg.interrupt]
    ∧ interruptClick t = t := by
  unfold interruptClick clearAudioQueue sendMsg resumeListening
  simp [hv, hs, hw, ht]

/-- Witness for the amended C4 at concrete states. -/
theorem interrupt_effect_witness :
    ((run initS [Ev.voiceBtn true, Ev.msg (some (Parsed.audioOutput true 1))]).isVoiceModeActive = true
      ∧ (run initS [Ev.voiceBtn true, Ev.msg (some (Parsed.audioOutput true 1))]).isAgentSpeaking = true
      ∧ (run initS [Ev.voiceBtn true, Ev.msg (some (Parsed.audioOutput true 1))]).wsOpen = true
      ∧ initS.isAgentSpeaking = false)
    ∧ ((interruptClick (run initS [Ev.voiceBtn true,
          Ev.msg (some (Parsed.audioOutput true 1))])).audioQueue = []
      ∧ (interruptClick (run initS [Ev.voiceBtn true,
          Ev.msg (some (Parsed.audioOutput true 1))])).pendingAgentDone = false
      ∧ (interruptClick (run initS [Ev.voiceBtn true,
          Ev.msg (some (Parsed.audioOutput true 1))])).isListening = true
      ∧ (interruptClick (run initS [Ev.voiceBtn true,
          Ev.msg (some (Parsed.audioOutput true 1))])).isAgentSpeaking = false
      ∧ (interruptClick (run initS [Ev.voiceBtn true,
          Ev.msg (some (Parsed.audioOutput true 1))])).isVoiceModeActive = true
      ∧ (interruptClick (run initS [Ev.voiceBtn true,
          Ev.msg (some (Parsed.audioOutput true 1))])).sent
        = (run initS [Ev.voiceBtn true, Ev.msg (some (Parsed.audioOutput true 1))]).sent
          ++ [OutMsg.interrupt]
      ∧ interruptClick initS = initS) :=
  ⟨by decide,
    interrupt_effect (run initS [Ev.voiceBtn true, Ev.msg (some (Parsed.audioOutput true 1))])
      initS (by decide) (by decide) (by decide) (by decide)⟩

/-- C5 (counterexample): LISTENING and AGENT_SPEAKING are not mutually
exclusive: if an agent_speaking message arrives while voice mode is off
(handleAgentSpeaking sets the flag unconditionally) and the user then
starts voice mode, both isListening and isAgentSpeaking are true, and the
capture callback sends an audio frame while the agent-speaking flag is
set. -/
theorem listening_and_speaking_simultaneously :
    (run initS [Ev.msg (some Parsed.agentSpeaking), Ev.voiceBtn true]).isListening = true
    ∧ (run initS [Ev.msg (some Parsed.agentSpeaking), Ev.voiceBtn true]).isAgentSpeaking = true
    ∧ (captureTick (run initS [Ev.msg (some Parsed.agentSpeaking),
        Ev.voiceBtn true])).sent = [OutMsg.audioInput] := by
  decide

/-- C5 (amended): along every run in which voice mode is never started
while the agent-speaking flag is already set, after every event
isListening and isAgentSpeaking are never simultaneously true, and a
capture frame is sent if and only if voice mode is active and
isListening is true. -/
theorem capture_iff_listening (evs : List Ev) (h : safeFrom initS evs = true) :
    ¬((run initS evs).isListening = true ∧ (run initS evs).isAgentSpeaking = true)
    ∧ ((captureTick (run initS evs)).sent
        = (run initS evs).sent ++ [OutMsg.audioInput]
      ↔ ((run initS evs).isVoiceModeActive = true
        ∧ (run initS evs).isListening = true)) := by
  obtain ⟨me, ha2, hw⟩ :=
    run_preserves_safe (P := FullInv) fullInv_step evs initS h (by decide)
  refine ⟨me, ?_, ?_⟩
  · intro hsent
    unfold captureTick sendMsg at hsent
    split_ifs at hsent with hg hw2
    · have hlen := congrArg List.length hsent
      simp at hlen
    · simp only [not_or, Bool.not_eq_false] at hg
      exact hg
    · have hlen := congrArg List.length hsent
      simp at hlen
  · rintro ⟨hv, hl⟩
    unfold captureTick sendMsg
    simp [hv, hl, hw hv]

/-- Witness for the amended C5 at a concrete safe run. -/
theorem capture_iff_listening_witness :
    safeFrom initS [Ev.voiceBtn true, Ev.msg (some (Parsed.audioOutput true 1))] = true
    ∧ (¬((run initS [Ev.voiceBtn true, Ev.msg (some (Parsed.audioOutput true 1))]).isListening = true
        ∧ (run initS [Ev.voiceBtn true, Ev.msg (some (Parsed.audioOutput true 1))]).isAgentSpeaking = true)
      ∧ ((captureTick (run initS [Ev.voiceBtn true, Ev.msg (some (Parsed.audioOutput true 1))])).sent
          = (run initS [Ev.voiceBtn true, Ev.msg (some (Parsed.audioOutput true 1))]).sent
            ++ [OutMsg.audioInput]
        ↔ ((run initS [Ev.voiceBtn true, Ev.msg (some (Parsed.audioOutput true 1))]).isVoiceModeActive = true
          ∧ (run initS [Ev.voiceBtn true, Ev.msg (some (Parsed.audioOutput true 1))]).isListening = true))) :=
  ⟨by decide, capture_iff_listening _ (by decide)⟩

/-- C6 (confirmed): issuing interrupt twice in a row is equivalent to
issuing it once: with voice mode active, the agent speaking and the
socket open, the second interrupt is a no-op, the resulting state has an
empty queue, capture enabled, agent-speaking and pending flags clear, and
exactly one interrupt message is appended to the wire. -/
theorem interrupt_idempotent (s : S) (hv : s.isVoiceModeActive = true)
    (hs : s.isAgentSpeaking = true) (hw : s.wsOpen = true) :
    interruptClick (interruptClick s) = interruptClick s
    ∧ (interruptClick s).audioQueue = []
    ∧ (interruptClick s).isListening = true
    ∧ (interruptClick s).isAgentSpeaking = false
    ∧ (interruptClick s).pendingAgentDone = false
    ∧ (interruptClick s).sent = s.sent ++ [OutMsg.interrupt] := by
  unfold interruptClick clearAudioQueue sendMsg resumeListening
  simp [hv, hs, hw]

/-- Witness for C6 at a concrete agent-speaking state. -/
theorem interrupt_idempotent_witness :
    ((run initS [Ev.voiceBtn true, Ev.msg (some (Parsed.audioOutput true 2))]).isVoiceModeActive = true
      ∧ (run initS [Ev.voiceBtn true, Ev.msg (some (Parsed.audioOutput true 2))]).isAgentSpeaking = true
      ∧ (run initS [Ev.voiceBtn true, Ev.msg (some (Parsed.audioOutput true 2))]).wsOpen = true)
    ∧ (interruptClick (interruptClick (run initS [Ev.voiceBtn true,
          Ev.msg (some (Parsed.audioOutput true 2))]))
        = interruptClick (run initS [Ev.voiceBtn true, Ev.msg (some (Parsed.audioOutput true 2))])
      ∧ (interruptClick (run initS [Ev.voiceBtn true,
          Ev.msg (some (Parsed.audioOutput true 2))])).audioQueue = []
      ∧ (interruptClick (run initS [Ev.voiceBtn true,
          Ev.msg (some (Parsed.audioOutput true 2))])).isListening = true
      ∧ (interruptClick (run initS [Ev.voiceBtn true,
          Ev.msg (some (Parsed.audioOutput true 2))])).isAgentSpeaking = false
      ∧ (interruptClick (run initS [Ev.voiceBtn true,
          Ev.msg (some (Parsed.audioOutput true 2))])).pendingAgentDone = false
      ∧ (interruptClick (run initS [Ev.voiceBtn true,
          Ev.msg (some (Parsed.audioOutput true 2))])).sent
        = (run initS [Ev.voiceBtn true, Ev.msg (some (Parsed.audioOutput true 2))]).sent
          ++ [OutMsg.interrupt]) :=
  ⟨by decide,
    interrupt_idempotent (run initS [Ev.voiceBtn true, Ev.msg (some (Parsed.audioOutput true 2))])
      (by decide) (by decide) (by decide)⟩

/-- C7 (counterexample): stopping voice mode while agent audio is queued
and rendering does not discard the queued audio: after stopVoiceMode the
queue still holds buffer 2 and buffer 1 is still in flight (only the
microphone is released). -/
theorem stop_voice_mode_keeps_audio :
    (run initS [Ev.voiceBtn true, Ev.msg (some (Parsed.audioOutput true 1)),
      Ev.msg (some (Parsed.audioOutput true 2)), Ev.voiceBtn true]).audioQueue = [2]
    ∧ (run initS [Ev.voiceBtn true, Ev.msg (some (Parsed.audioOutput true 1)),
      Ev.msg (some (Parsed.audioOutput true 2)), Ev.voiceBtn true]).inflight = [1]
    ∧ (run initS [Ev.voiceBtn true, Ev.msg (some (Parsed.audioOutput true 1)),
      Ev.msg (some (Parsed.audioOutput true 2)), Ev.voiceBtn true]).micHeld = false := by
  decide

/-- C7 (amended): stopping voice mode disables capture and releases the
microphone, but leaves the playback queue, the processing flag and any
in-flight rendering untouched — queued agent audio is not discarded and
keeps rendering. -/
theorem stopVoiceMode_spec (s : S) :
    (stopVoiceMode s).audioQueue = s.audioQueue
    ∧ (stopVoiceMode s).inflight = s.inflight
    ∧ (stopVoiceMode s).isProcessing = s.isProcessing
    ∧ (stopVoiceMode s).pendingAgentDone = s.pendingAgentDone
    ∧ (stopVoiceMode s).isVoiceModeActive = false
    ∧ (stopVoiceMode s).isListening = false
    ∧ (stopVoiceMode s).micHeld = false := by
  unfold stopVoiceMode
  exact ⟨rfl, rfl, rfl, rfl, rfl, rfl, rfl⟩

/-- C8 (confirmed): a malformed inbound envelope (JSON.parse throws, the
catch only logs) or an envelope with an unknown type tag (the default
branch only logs) leaves the entire client state — turn flags, queue and
socket status included — unchanged. -/
theorem malformed_envelope_dropped (s : S) :
    handleWebSocketMessage none s = s
    ∧ handleWebSocketMessage (some Parsed.unknownTag) s = s
    ∧ (handleWebSocketMessage none s).wsOpen = s.wsOpen := by
  exact ⟨rfl, rfl, rfl⟩

/-- C9 (confirmed): in every state reachable from the initial state by
any event sequence, pendingAgentDone implies isAgentSpeaking — every
operation (agent_done, audio_output, queue processing, completions,
clear/interrupt, voice toggling) preserves the implication. -/
theorem pending_implies_speaking (evs : List Ev)
    (h : (run initS evs).pendingAgentDone = true) :
    (run initS evs).isAgentSpeaking = true :=
  (run_preserves inv9_step evs initS (by decide)).1 h

/-- Witness for C9: a run in which agent_done arrives while a buffer is
rendering, so the pending flag is set and the speaking flag holds. -/
theorem pending_implies_speaking_witness :
    (run initS [Ev.voiceBtn true, Ev.msg (some (Parsed.audioOutput true 1)),
      Ev.msg (some Parsed.agentDone)]).pendingAgentDone = true
    ∧ (run initS [Ev.voiceBtn true, Ev.msg (some (Parsed.audioOutput true 1)),
      Ev.msg (some Parsed.agentDone)]).isAgentSpeaking = true :=
  ⟨by decide, pending_implies_speaking _ (by decide)⟩

/-- C10 (confirmed): an audio_output message that arrives while voice
mode is inactive, or whose payload has no audio data, is ignored
completely — nothing is decoded, enqueued or played, and the whole state
(including the listening, agent-speaking and pending flags) is
unchanged. -/
theorem audio_output_ignored (s : S) (hasAudio : Bool) (b : Nat)
    (h : hasAudio = false ∨ s.isVoiceModeActive = false) :
    handleAudioOutput hasAudio b s = s := by
  unfold handleAudioOutput
  rcases h with h | h <;> simp [h]

/-- Witness for C10: an audio_output with no audio payload at the initial
state. -/
theorem audio_output_ignored_witness :
    (false = false ∨ initS.isVoiceModeActive = false)
    ∧ handleAudioOutput false 7 initS = initS :=
  ⟨by decide, audio_output_ignored initS false 7 (by decide)⟩

end VoiceClient
